import Mathlib

/-!
Shallow embedding of the SMS group-chat core (backend/app): the phone pool,
the SMS command parser, the inbound webhook router, fanout, and the group
membership operations.  Python/SQLAlchemy state is modelled as an explicit
`DB` record of lists; database queries (`query(...).filter(...).first()`)
become `List.find?`; relationship collections (`group.users`, `user.groups`)
become joins over the `user_groups` association rows.
-/

namespace SmsChat

/-- Model of `PhoneStatus` enum from app/models/phone_pool.py (str enum with values
"AVAILABLE", "ASSIGNED", "INACTIVE"). -/
inductive PhoneStatus where
  | AVAILABLE
  | ASSIGNED
  | INACTIVE
deriving DecidableEq, Repr

/-- Model of `PhoneStatus(status_string)` value lookup: succeeds exactly on the three
enum value strings, raising `ValueError` (here `none`) otherwise
(app/api/admin.py lines 104-110). -/
def PhoneStatus.fromString : String → Option PhoneStatus
  | "AVAILABLE" => some .AVAILABLE
  | "ASSIGNED" => some .ASSIGNED
  | "INACTIVE" => some .INACTIVE
  | _ => none

/-- Model of `User` row from app/models/models.py. -/
structure UserR where
  id : Nat
  name : String
  phone_number : String
deriving DecidableEq, Repr

/-- Model of `Group` row from app/models/models.py. -/
structure GroupR where
  id : Nat
  name : String
deriving DecidableEq, Repr

/-- Model of `PhoneNumber` row from app/models/phone_pool.py; `assigned_at` is an
abstract timestamp. -/
structure PhoneNumberR where
  id : Nat
  phone_number : String
  twilio_sid : Option String
  status : PhoneStatus
  group_id : Option Nat
  assigned_at : Option Nat
deriving DecidableEq, Repr

/-- Model of `Message` row from app/models/models.py (id/created_at elided: the log is
kept in insertion order, which is creation order). -/
structure MessageR where
  content : String
  user_id : Nat
  group_id : Nat
deriving DecidableEq, Repr

/-- The persistent store: users, groups, the `user_groups` association table
(rows `(user_id, group_id)` in insertion order), the phone pool, and the
append-only message log. -/
structure DB where
  users : List UserR
  groups : List GroupR
  memberships : List (Nat × Nat)
  phones : List PhoneNumberR
  messages : List MessageR
deriving DecidableEq, Repr

/-- Model of `group.users`: the users joined to `gid` through `user_groups`, in
association-row order. -/
def DB.groupUsers (db : DB) (gid : Nat) : List UserR :=
  (db.memberships.filter (fun m => m.2 == gid)).filterMap
    (fun m => db.users.find? (fun u => u.id == m.1))

/-- Model of `user.groups`: the groups joined to `uid` through `user_groups`, in
association-row order. -/
def DB.userGroups (db : DB) (uid : Nat) : List GroupR :=
  (db.memberships.filter (fun m => m.1 == uid)).filterMap
    (fun m => db.groups.find? (fun g => g.id == m.2))

/-- Model of `group.phone_number_rel`: the `PhoneNumber` row whose `group_id` points at
`gid` (uselist=False: the first such row). -/
def DB.groupPhone (db : DB) (gid : Nat) : Option PhoneNumberR :=
  db.phones.find? (fun p => p.group_id == some gid)

/-! ## Command parser (app/services/sms_service.py, `parse_sms_command`)

The two regexes are embedded as explicit matchers over `List Char`.
`re.match` semantics: anchored at the start; `.` matches any character except
`'\n'`; `\s` is whitespace; `$` matches at the end of the string.  Both
matchers are applied to `body.strip()`, which has no leading or trailing
whitespace — the matchers below are faithful on such inputs. -/

/-- Python `\s` / `str.strip()` whitespace, ASCII range. -/
def isPySpace (c : Char) : Bool :=
  c == ' ' || c == '\t' || c == '\n' || c == '\r' || c == '\x0b' || c == '\x0c'

/-- Python `str.strip()` on a character list. -/
def pyStrip (l : List Char) : List Char :=
  ((l.dropWhile isPySpace).reverse.dropWhile isPySpace).reverse

/-- Model of `re.match(r'^@"([^"]+)"\s+(.+)$', s)` on a stripped string `s`:
after `@"`, group 1 is the (non-empty) run up to the first `"`; then one or
more whitespace characters; group 2 is the non-empty, newline-free remainder
running to the end of the string. -/
def matchQuoted (l : List Char) : Option (List Char × List Char) :=
  match l with
  | '@' :: '"' :: rest =>
    let g := rest.takeWhile (fun c => c != '"')
    match rest.dropWhile (fun c => c != '"') with
    | '"' :: tail =>
      if g.isEmpty then none
      else
        let w := tail.takeWhile isPySpace
        let r := tail.dropWhile isPySpace
        if w.isEmpty then none
        else if !r.isEmpty && !r.contains '\n' then some (g, r)
        else none
    | _ => none
  | _ => none

/-- The `\s+([a-zA-Z].+)$` part of the unquoted pattern at a suffix `t` of a
stripped string: one or more whitespace characters, then a remainder of length
at least two that starts with an ASCII letter and contains no newline.
The greedy `\s+` cannot give characters back to group 2, because group 2 must
start with a letter. -/
def tailMatchU (t : List Char) : Option (List Char) :=
  let w := t.takeWhile isPySpace
  match t.dropWhile isPySpace with
  | a :: b :: rs =>
    if !w.isEmpty && a.isAlpha && !(b :: rs).contains '\n' then some (a :: b :: rs)
    else none
  | _ => none

/-- The lazy `[A-Za-z\s]*?` extension of group 1: try the shortest group 1
first; on failure of the rest of the pattern, extend group 1 by one more
letter-or-whitespace character and retry. `acc` holds the group-1 characters
consumed so far, reversed. -/
def matchUnquotedAux (acc : List Char) (t : List Char) : Option (List Char × List Char) :=
  match tailMatchU t with
  | some r => some (acc.reverse, r)
  | none =>
    match t with
    | c :: rest =>
      if c.isAlpha || isPySpace c then matchUnquotedAux (c :: acc) rest else none
    | [] => none

/-- Model of `re.match(r'^@([A-Za-z][A-Za-z\s]*?)\s+([a-zA-Z].+)$', s)` on a stripped
string `s`. -/
def matchUnquoted (l : List Char) : Option (List Char × List Char) :=
  match l with
  | '@' :: c :: rest => if c.isAlpha then matchUnquotedAux [c] rest else none
  | _ => none

/-- Model of `parse_sms_command` (app/services/sms_service.py lines 114-143): strip the
body; try the quoted pattern, then the unquoted pattern (whose group 1 is
stripped, both branches of the `len(words)` split returning the same value);
on no match return `(None, body)` with the original, unstripped body. -/
def parse_sms_command (body : String) : Option String × String :=
  let s := pyStrip body.data
  match matchQuoted s with
  | some (g, r) => (some (String.mk g), String.mk r)
  | none =>
    match matchUnquoted s with
    | some (g, r) => (some (String.mk (pyStrip g)), String.mk r)
    | none => (none, body)

/-! ## Outbound sends (app/services/sms_service.py) -/

/-- One outbound SMS handed to the transport: `client.messages.create(body=...,
from_=..., to=...)`. -/
structure Send where
  to_number : String
  sender : String
  body : String
deriving DecidableEq, Repr

/-- Model of `send_group_message` (app/services/sms_service.py lines 49-68): body is
`[<group>] <from_name>: <content>`; the from number is `group_phone_number or
twilio_phone_number` — the group phone when passed (`none` models Python
`None`), else the process-wide default `tw`. -/
def send_group_message (tw : String) (to_number from_name content group_name : String)
    (group_phone_number : Option String) : Send :=
  { to_number := to_number
    sender := group_phone_number.getD tw
    body := "[" ++ group_name ++ "] " ++ from_name ++ ": " ++ content }

/-- Model of `send_welcome_sms` / `send_welcome_sms_with_phone` body and sender
(app/services/sms_service.py lines 29-46 and 71-91). -/
def send_welcome_sms (from_number : String) (to_number group_name : String) : Send :=
  { to_number := to_number
    sender := from_number
    body := "Welcome to the '" ++ group_name ++ "' chat! " ++
            "Reply to this number to send messages to the group." }

/-! ## Inbound webhook (app/api/sms.py, `handle_sms_webhook`) -/

/-- Result of one webhook call: the JSON reply's `message` field, the store
after the call, and the outbound sends emitted during the call. -/
structure WebhookResult where
  reply : String
  db : DB
  sends : List Send
deriving DecidableEq, Repr

/-- Python `str.lower()` as used for the case-insensitive group-name match
(`g.name.lower() == group_name.lower()`, app/api/sms.py line 52), modelled on
the ASCII range like the parser's character classes. -/
def pyLower (s : String) : String :=
  String.mk (s.data.map Char.toLower)

/-- The reply returned when the sender's group cannot be determined from the
body alone (app/api/sms.py lines 67-72) — returned both for zero groups and
for more than one group. -/
def multipleGroupsReply : String :=
  "Multiple groups detected. Prefix message with @\x22Group Name\x22 to specify destination."

/-- Model of `handle_sms_webhook` (app/api/sms.py lines 11-98), translated clause by
clause.  `tw` is the process-wide default outbound number
(`TWILIO_PHONE_NUMBER`).  Python truthiness of `phone_record.group_id` is
modelled exactly: `None` and `0` are falsy.  The final Python guard
`if not target_group` is unreachable (every fallback branch either sets
`target_group` or returns) and is omitted. -/
def handle_sms_webhook (tw : String) (From Body To : String) (db : DB) : WebhookResult :=
  match db.users.find? (fun u => u.phone_number == From) with
  | none => ⟨"User not registered", db, []⟩
  | some user =>
    let phone_record := db.phones.find? (fun p => p.phone_number == To)
    -- Route by assigned pool phone if available
    let step1 : Option GroupR × Option String × Option String :=
      match phone_record with
      | some pr =>
        if pr.status == .ASSIGNED && pr.group_id.getD 0 != 0 then
          match db.groups.find? (fun g => some g.id == pr.group_id) with
          | some tg =>
            if (db.groupUsers tg.id).any (fun m => m.id == user.id) then
              (some tg, some To, none)
            else
              (none, none, some ("You are not a member of the '" ++ tg.name ++ "' group"))
          | none => (none, some To, none)
        else (none, none, none)
      | none => (none, none, none)
    match step1 with
    | (_, _, some reply) => ⟨reply, db, []⟩
    | (tgOpt, gpfsOpt, none) =>
      -- Fallback: support @"Group Name" or single-group routing
      let resolved : Except String (GroupR × String) :=
        match tgOpt with
        | some tg => .ok (tg, Body)
        | none =>
          match parse_sms_command Body with
          | (some gname, stripped) =>
            match (db.userGroups user.id).find?
                (fun g => pyLower g.name == pyLower gname) with
            | some g => .ok (g, stripped)
            | none =>
              .error ("Group '" ++ gname ++ "' not found or you are not a member")
          | (none, _) =>
            match db.userGroups user.id with
            | [g] => .ok (g, Body)
            | _ => .error multipleGroupsReply
      match resolved with
      | .error reply => ⟨reply, db, []⟩
      | .ok (tg, content) =>
        let db1 : DB := { db with messages := db.messages ++ [⟨content, user.id, tg.id⟩] }
        let gpfs : Option String :=
          match gpfsOpt with
          | some s => some s
          | none => (db1.groupPhone tg.id).map (fun p => p.phone_number)
        let sends :=
          ((db1.groupUsers tg.id).filter (fun m => m.id != user.id)).map
            (fun m => send_group_message tw m.phone_number user.name content tg.name gpfs)
        ⟨"Message sent to " ++ tg.name ++ " group", db1, sends⟩

/-! ## The fanout loop with a fallible transport

`send_group_message` and the webhook's fanout loop (app/api/sms.py lines
88-96) contain no try/except: when the transport client raises on a
recipient, the exception aborts the loop and propagates out of the handler.
`fanout_attempts` runs the loop against a transport `failsOn` (mapping a
recipient number to `some error` when `messages.create` raises there),
returning the recipients for which a send was attempted and the propagated
exception, if any. -/
def fanout_attempts (failsOn : String → Option String) (members : List UserR)
    (author_id : Nat) : List String × Option String :=
  match members with
  | [] => ([], none)
  | m :: rest =>
    if m.id != author_id then
      match failsOn m.phone_number with
      | some e => ([m.phone_number], some e)
      | none =>
        let res := fanout_attempts failsOn rest author_id
        (m.phone_number :: res.1, res.2)
    else fanout_attempts failsOn rest author_id

/-! ## Phone pool operations (app/api/admin.py, app/api/groups.py) -/

/-- Model of `assign_phone_to_group` (app/api/groups.py lines 18-30): take the first
`AVAILABLE` pool number, flip it to `ASSIGNED`, bind `group_id`, stamp
`assigned_at`; return `none` (pool empty) without touching the store
otherwise. -/
def assign_phone_to_group (group_id : Nat) (now : Nat) (db : DB) :
    Option PhoneNumberR × DB :=
  match db.phones.find? (fun p => p.status == .AVAILABLE) with
  | some p =>
    let p' : PhoneNumberR :=
      { p with status := .ASSIGNED, group_id := some group_id, assigned_at := some now }
    (some p', { db with phones := db.phones.map (fun q => if q.id == p.id then p' else q) })
  | none => (none, db)

/-- Autoincrement primary key for a new group row. -/
def freshGroupId (db : DB) : Nat :=
  (db.groups.map (fun g => g.id)).foldr Nat.max 0 + 1

/-- Model of `create_group` (app/api/groups.py lines 33-46): insert the group, then try
to assign a pool number; a `none` from the pool only logs a warning and the
group is returned regardless. -/
def create_group (name : String) (now : Nat) (db : DB) : GroupR × DB :=
  let g : GroupR := ⟨freshGroupId db, name⟩
  let db1 : DB := { db with groups := db.groups ++ [g] }
  (g, (assign_phone_to_group g.id now db1).2)

/-- Model of `register_phone_number` (app/api/admin.py lines 30-51): 400 on duplicate
number, else insert with status `AVAILABLE`. Errors are `(HTTP status,
detail)`. -/
def register_phone_number (number : String) (sid : Option String) (db : DB) :
    Except (Nat × String) (PhoneNumberR × DB) :=
  if db.phones.any (fun p => p.phone_number == number) then
    .error (400, "Phone number already registered")
  else
    let pid := (db.phones.map (fun p => p.id)).foldr Nat.max 0 + 1
    let p : PhoneNumberR := ⟨pid, number, sid, .AVAILABLE, none, none⟩
    .ok (p, { db with phones := db.phones ++ [p] })

/-- Model of `update_phone_status` (app/api/admin.py lines 91-118): 404 on unknown id,
400 on a string that is not a `PhoneStatus` value; else set the status and
clear `group_id`/`assigned_at` unless the new status is `ASSIGNED`. -/
def update_phone_status (phone_id : Nat) (status : String) (db : DB) :
    Except (Nat × String) DB :=
  match db.phones.find? (fun p => p.id == phone_id) with
  | none => .error (404, "Phone number not found")
  | some _ =>
    match PhoneStatus.fromString status with
    | none => .error (400, "Invalid status value")
    | some ps =>
      .ok { db with phones := db.phones.map (fun q =>
              if q.id == phone_id then
                if ps != .ASSIGNED then
                  { q with status := ps, group_id := none, assigned_at := none }
                else { q with status := ps }
              else q) }

/-- Model of `delete_phone_number` (app/api/admin.py lines 70-88): 404 on unknown id,
400 when the number is `ASSIGNED`, else delete the row. -/
def delete_phone_number (phone_id : Nat) (db : DB) : Except (Nat × String) DB :=
  match db.phones.find? (fun p => p.id == phone_id) with
  | none => .error (404, "Phone number not found")
  | some phone =>
    if phone.status == .ASSIGNED then
      .error (400, "Cannot delete assigned phone number")
    else
      .ok { db with phones := db.phones.filter (fun q => q.id != phone_id) }

/-- One pool-touching operation, for stating pool invariants uniformly. -/
inductive PoolOp where
  | registerNum (number : String) (sid : Option String)
  | assign (group_id : Nat) (now : Nat)
  | createGrp (name : String) (now : Nat)
  | setStatus (phone_id : Nat) (status : String)
  | deleteNum (phone_id : Nat)

/-- Apply a pool operation to the store, keeping the prior store on an HTTP
error. -/
def applyPoolOp : PoolOp → DB → DB
  | .registerNum number sid, db =>
    match register_phone_number number sid db with
    | .ok (_, db') => db'
    | .error _ => db
  | .assign gid now, db => (assign_phone_to_group gid now db).2
  | .createGrp name now, db => (create_group name now db).2
  | .setStatus pid s, db =>
    match update_phone_status pid s db with
    | .ok db' => db'
    | .error _ => db
  | .deleteNum pid, db =>
    match delete_phone_number pid db with
    | .ok db' => db'
    | .error _ => db

/-! ## Group membership (app/api/groups.py, `join_group`) -/

/-- Model of `join_group` (app/api/groups.py lines 87-121): 404 on unknown group or
user, 400 when already a member; else append the membership row, append the
`"<name> joined the group!"` message, and send one welcome SMS (from the
group's bound number when present and non-empty, else the default). -/
def join_group (tw : String) (group_id user_id : Nat) (db : DB) :
    Except (Nat × String) (String × DB × Send) :=
  match db.groups.find? (fun g => g.id == group_id) with
  | none => .error (404, "Group not found")
  | some group =>
    match db.users.find? (fun u => u.id == user_id) with
    | none => .error (404, "User not found")
    | some user =>
      if (db.groupUsers group_id).any (fun m => m.id == user.id) then
        .error (400, "User already in group")
      else
        let db1 : DB := { db with memberships := db.memberships ++ [(user_id, group_id)] }
        let db2 : DB :=
          { db1 with messages :=
              db1.messages ++ [⟨user.name ++ " joined the group!", user_id, group_id⟩] }
        let welcome : Send :=
          match db2.groupPhone group_id with
          | some p =>
            if p.phone_number != "" then send_welcome_sms p.phone_number user.phone_number group.name
            else send_welcome_sms tw user.phone_number group.name
          | none => send_welcome_sms tw user.phone_number group.name
        .ok ("User " ++ user.name ++ " joined group " ++ group.name, db2, welcome)

/-! ## Concrete stores used to instantiate the theorems -/

/-- A small store: Alice (1) in groups A and B, Bob (2) and Carol (3) in
group A, Dave (4) in group B, Eve (5) in no group; pool number "+900" is
Assigned and bound to group A (id 1); group B has no bound number. -/
def dbEx : DB :=
  { users := [⟨1, "Alice", "+111"⟩, ⟨2, "Bob", "+222"⟩, ⟨3, "Carol", "+333"⟩,
              ⟨4, "Dave", "+444"⟩, ⟨5, "Eve", "+555"⟩]
    groups := [⟨1, "Group A"⟩, ⟨2, "Group B"⟩]
    memberships := [(1, 1), (2, 1), (3, 1), (1, 2), (4, 2)]
    phones := [⟨1, "+900", none, .ASSIGNED, some 1, some 5⟩]
    messages := [] }

/-! ## Theorems -/

/-- C1: when the sender resolves to a registered user, `To` resolves to an
Assigned pool number bound to a group, and the sender is a member of that
group, the webhook routes the message to that group with content equal to the
full `Body` — for every body, so in particular bodies starting with `@` are
not command-parsed on this path. -/
theorem webhook_routes_by_bound_number
    (tw From Body To : String) (db : DB) (user : UserR) (pr : PhoneNumberR)
    (gid : Nat) (g : GroupR)
    (h1 : db.users.find? (fun u => u.phone_number == From) = some user)
    (h2 : db.phones.find? (fun p => p.phone_number == To) = some pr)
    (h3 : pr.status = .ASSIGNED)
    (h4 : pr.group_id = some gid) (h5 : gid ≠ 0)
    (h6 : db.groups.find? (fun g' => g'.id == gid) = some g)
    (h7 : ∃ m ∈ db.groupUsers g.id, m.id = user.id) :
    (handle_sms_webhook tw From Body To db).reply =
      "Message sent to " ++ g.name ++ " group" ∧
    (handle_sms_webhook tw From Body To db).db.messages =
      db.messages ++ [⟨Body, user.id, g.id⟩] := by
  simp [handle_sms_webhook, h1, h2, h3, h4, h5, h6, h7]

/-- C1 witness: Alice texts group A's bound number with an `@`-prefixed body
naming group B; the message is still routed to group A with the full body. -/
theorem webhook_routes_by_bound_number_witness :
    (handle_sms_webhook "+000" "+111" "@\x22Group B\x22 hey" "+900" dbEx).reply =
      "Message sent to Group A group" ∧
    (handle_sms_webhook "+000" "+111" "@\x22Group B\x22 hey" "+900" dbEx).db.messages =
      [⟨"@\x22Group B\x22 hey", 1, 1⟩] := by
  have h := webhook_routes_by_bound_number "+000" "+111" "@\x22Group B\x22 hey" "+900"
      dbEx ⟨1, "Alice", "+111"⟩ ⟨1, "+900", none, .ASSIGNED, some 1, some 5⟩ 1
      ⟨1, "Group A"⟩ (by decide) (by decide) rfl rfl (by decide) (by decide) (by decide)
  exact ⟨h.1, by rw [h.2]; rfl⟩

/-- C2: when `To` is bound to a group of which the registered sender is not a
member, the webhook replies naming that group, and the store is unchanged (in
particular no `Message` is persisted) and no send is emitted. -/
theorem webhook_not_a_member_rejected
    (tw From Body To : String) (db : DB) (user : UserR) (pr : PhoneNumberR)
    (gid : Nat) (g : GroupR)
    (h1 : db.users.find? (fun u => u.phone_number == From) = some user)
    (h2 : db.phones.find? (fun p => p.phone_number == To) = some pr)
    (h3 : pr.status = .ASSIGNED)
    (h4 : pr.group_id = some gid) (h5 : gid ≠ 0)
    (h6 : db.groups.find? (fun g' => g'.id == gid) = some g)
    (h7 : ¬ ∃ m ∈ db.groupUsers g.id, m.id = user.id) :
    handle_sms_webhook tw From Body To db =
      ⟨"You are not a member of the '" ++ g.name ++ "' group", db, []⟩ := by
  simp [handle_sms_webhook, h1, h2, h3, h4, h5, h6, h7]

/-- C2 witness: Dave (a member of group B only) texts group A's bound number;
he is rejected by name and the store is untouched. -/
theorem webhook_not_a_member_rejected_witness :
    handle_sms_webhook "+000" "+444" "anything" "+900" dbEx =
      ⟨"You are not a member of the 'Group A' group", dbEx, []⟩ :=
  webhook_not_a_member_rejected "+000" "+444" "anything" "+900" dbEx
    ⟨4, "Dave", "+444"⟩ ⟨1, "+900", none, .ASSIGNED, some 1, some 5⟩ 1
    ⟨1, "Group A"⟩ (by decide) (by decide) rfl rfl (by decide) (by decide) (by decide)

/-- C3 counterexample: the claim applies the priority grammar to `body`
itself, under which a body with leading whitespace matches neither form (both
forms start with `@`), so the claimed result is `(none, body unchanged)`; but
`parse_sms_command` strips the body before matching and extracts the quoted
group name. -/
theorem parse_leading_space_counterexample :
    parse_sms_command "  @\x22Book Club\x22 hi there" = (some "Book Club", "hi there") ∧
    parse_sms_command "  @\x22Book Club\x22 hi there" ≠
      (none, "  @\x22Book Club\x22 hi there") := by
  decide

/-- C3 amended: `parse_sms_command` follows the priority grammar applied to
the whitespace-stripped body — quoted form first, then the unquoted
non-greedy form with its captured span trimmed, else `(none, body unchanged)`
— and the three example parses of the claim hold. -/
theorem parse_priority_on_stripped :
    parse_sms_command "@\x22Book Club\x22 hi there" = (some "Book Club", "hi there") ∧
    parse_sms_command "@BookClub hello world" = (some "BookClub", "hello world") ∧
    parse_sms_command "just a message" = (none, "just a message") ∧
    (∀ body g r, matchQuoted (pyStrip body.data) = some (g, r) →
      parse_sms_command body = (some (String.mk g), String.mk r)) ∧
    (∀ body g r, matchQuoted (pyStrip body.data) = none →
      matchUnquoted (pyStrip body.data) = some (g, r) →
      parse_sms_command body = (some (String.mk (pyStrip g)), String.mk r)) ∧
    (∀ body, matchQuoted (pyStrip body.data) = none →
      matchUnquoted (pyStrip body.data) = none →
      parse_sms_command body = (none, body)) := by
  refine ⟨by decide, by decide, by decide, ?_, ?_, ?_⟩ <;>
    · intros
      simp_all [parse_sms_command]

/-- C3 amended witness: the unquoted clause applied to a concrete body. -/
theorem parse_priority_on_stripped_witness :
    parse_sms_command "@Gg Hh xx" = (some "Gg", "Hh xx") := by
  have h := parse_priority_on_stripped.2.2.2.2.1 "@Gg Hh xx" "Gg".data "Hh xx".data
      (by decide) (by decide)
  rw [h]
  decide

/-- C4 counterexample: a sender in zero groups and a sender in more than one
group receive the same reply on the no-command fallback path — there is no
distinct `NoGroups` outcome.  Eve (no groups) and Alice (two groups) both get
the multiple-groups reply. -/
theorem webhook_zero_groups_counterexample :
    (handle_sms_webhook "+000" "+555" "hello" "+777" dbEx).reply =
      multipleGroupsReply ∧
    (handle_sms_webhook "+000" "+111" "hello" "+777" dbEx).reply =
      multipleGroupsReply := by
  decide

/-- C4 amended: on the fallback path with no group name extracted, a sender
in exactly one group is routed there with content equal to the full body;
any other membership count — zero included — yields the single shared
multiple-groups reply with the store unchanged and no sends. -/
theorem webhook_fallback_no_name
    (tw From Body To : String) (db : DB) (user : UserR)
    (h1 : db.users.find? (fun u => u.phone_number == From) = some user)
    (h2 : db.phones.find? (fun p => p.phone_number == To) = none)
    (h3 : (parse_sms_command Body).1 = none) :
    (∀ g, db.userGroups user.id = [g] →
      (handle_sms_webhook tw From Body To db).reply =
        "Message sent to " ++ g.name ++ " group" ∧
      (handle_sms_webhook tw From Body To db).db.messages =
        db.messages ++ [⟨Body, user.id, g.id⟩]) ∧
    ((db.userGroups user.id).length ≠ 1 →
      handle_sms_webhook tw From Body To db = ⟨multipleGroupsReply, db, []⟩) := by
  obtain ⟨p2, hp⟩ : ∃ p2, parse_sms_command Body = (none, p2) :=
    ⟨(parse_sms_command Body).2, by rw [← h3]⟩
  constructor
  · intro g hg
    simp [handle_sms_webhook, h1, h2, hp, hg]
  · intro hlen
    cases hgs : db.userGroups user.id with
    | nil => simp [handle_sms_webhook, h1, h2, hp, hgs]
    | cons a t =>
      cases t with
      | nil => rw [hgs] at hlen; simp at hlen
      | cons b t' => simp [handle_sms_webhook, h1, h2, hp, hgs]

/-- C4 amended witness: Bob (exactly one group) is routed to it; Alice (two
groups) gets the shared reply with the store unchanged. -/
theorem webhook_fallback_no_name_witness :
    (handle_sms_webhook "+000" "+222" "hi all" "+777" dbEx).reply =
      "Message sent to Group A group" ∧
    handle_sms_webhook "+000" "+111" "hello" "+777" dbEx =
      ⟨multipleGroupsReply, dbEx, []⟩ := by
  constructor
  · exact ((webhook_fallback_no_name "+000" "+222" "hi all" "+777" dbEx
      ⟨2, "Bob", "+222"⟩ (by decide) (by decide) (by decide)).1
      ⟨1, "Group A"⟩ (by decide)).1
  · exact (webhook_fallback_no_name "+000" "+111" "hello" "+777" dbEx
      ⟨1, "Alice", "+111"⟩ (by decide) (by decide) (by decide)).2 (by decide)

/-- A pool store with a single Available, unbound number. -/
def dbC5 : DB := ⟨[], [], [], [⟨1, "+900", none, .AVAILABLE, none, none⟩], []⟩

/-- C5 counterexample: updating an Available number's status to `ASSIGNED`
through the admin endpoint succeeds but does not set `group_id` or
`assigned_at` — the store then holds a record with status Assigned and
`group_id` unset, refuting the claimed "set iff Assigned" invariant. -/
theorem update_status_assigned_counterexample :
    update_phone_status 1 "ASSIGNED" dbC5 =
      .ok ⟨[], [], [], [⟨1, "+900", none, .ASSIGNED, none, none⟩], []⟩ ∧
    ¬ ∀ p ∈ [(⟨1, "+900", none, .ASSIGNED, none, none⟩ : PhoneNumberR)],
        p.status = .ASSIGNED → p.group_id ≠ none :=
  ⟨rfl, by decide⟩

/-- The direction of the C5 invariant that the code does maintain: a record
not in status Assigned has `group_id` and `assigned_at` unset. -/
abbrev phoneClearUnlessAssigned (p : PhoneNumberR) : Prop :=
  p.status ≠ .ASSIGNED → p.group_id = none ∧ p.assigned_at = none

/-- The operation `assign_phone_to_group` preserves the weak invariant. -/
lemma assign_preserves_clear (gid now : Nat) (db : DB)
    (h : ∀ p ∈ db.phones, phoneClearUnlessAssigned p) :
    ∀ p ∈ (assign_phone_to_group gid now db).2.phones, phoneClearUnlessAssigned p := by
  unfold assign_phone_to_group
  cases hf : db.phones.find? (fun p => p.status == .AVAILABLE) with
  | none => simpa using h
  | some q =>
    simp only [List.mem_map]
    rintro p ⟨q', hq', rfl⟩
    by_cases hid : (q'.id == q.id) = true
    · rw [if_pos hid]
      exact fun hcon => absurd rfl hcon
    · rw [if_neg hid]
      exact h q' hq'

/-- C5 amended: every pool operation (register, assign, group creation,
status update, delete) preserves "group_id/assigned_at unset unless status is
Assigned", and a status update to any non-Assigned value clears
`group_id`/`assigned_at` on the updated record; the converse direction of the
claimed iff fails (see the counterexample). -/
theorem pool_ops_weak_invariant :
    (∀ (op : PoolOp) (db : DB), (∀ p ∈ db.phones, phoneClearUnlessAssigned p) →
      ∀ p ∈ (applyPoolOp op db).phones, phoneClearUnlessAssigned p) ∧
    (∀ (pid : Nat) (s : String) (db db' : DB) (ps : PhoneStatus),
      update_phone_status pid s db = .ok db' →
      PhoneStatus.fromString s = some ps → ps ≠ .ASSIGNED →
      ∀ p ∈ db'.phones, p.id = pid → p.group_id = none ∧ p.assigned_at = none) := by
  constructor
  · intro op db h
    cases op with
    | registerNum number sid =>
      simp only [applyPoolOp, register_phone_number]
      by_cases hdup : (db.phones.any (fun p => p.phone_number == number)) = true
      · simpa [hdup] using h
      · simp only [Bool.not_eq_true] at hdup
        simp only [hdup, Bool.false_eq_true, if_false, List.mem_append, List.mem_singleton]
        rintro p (hp | rfl)
        · exact h p hp
        · intro _; exact ⟨rfl, rfl⟩
    | assign gid now => exact assign_preserves_clear gid now db h
    | createGrp name now => exact assign_preserves_clear _ now _ h
    | setStatus pid s =>
      simp only [applyPoolOp]
      cases hf : update_phone_status pid s db with
      | error e => simpa using h
      | ok db' =>
        simp only
        unfold update_phone_status at hf
        split at hf
        · exact absurd hf (by simp)
        · split at hf
          · exact absurd hf (by simp)
          next ps hps =>
            simp only [Except.ok.injEq] at hf
            subst hf
            simp only [List.mem_map]
            rintro p ⟨q', hq', rfl⟩
            by_cases hid : (q'.id == pid) = true
            · by_cases hA : (ps != PhoneStatus.ASSIGNED) = true
              · rw [if_pos hid, if_pos hA]
                exact fun _ => ⟨rfl, rfl⟩
              · have hA' : ps = PhoneStatus.ASSIGNED := by
                  simpa using hA
                rw [if_pos hid, if_neg hA]
                exact fun hcon => absurd hA' hcon
            · rw [if_neg hid]
              exact h q' hq'
    | deleteNum pid =>
      simp only [applyPoolOp]
      cases hf : delete_phone_number pid db with
      | error e => simpa using h
      | ok db' =>
        simp only
        unfold delete_phone_number at hf
        split at hf
        · exact absurd hf (by simp)
        · split at hf
          · exact absurd hf (by simp)
          · simp only [Except.ok.injEq] at hf
            subst hf
            intro p hp
            exact h p (List.mem_of_mem_filter hp)
  · intro pid s db db' ps hok hps hne
    unfold update_phone_status at hok
    cases hfind : db.phones.find? (fun p => p.id == pid) with
    | none => rw [hfind] at hok; simp at hok
    | some q =>
      rw [hfind, hps] at hok
      simp only [Except.ok.injEq] at hok
      subst hok
      simp only [List.mem_map]
      rintro p ⟨q', hq', rfl⟩ hpid
      by_cases hid : (q'.id == pid) = true
      · have hA : (ps != PhoneStatus.ASSIGNED) = true := bne_iff_ne.mpr hne
        simp [hid, hA]
      · simp only [Bool.not_eq_true] at hid
        simp only [hid, Bool.false_eq_true, if_false] at hpid
        exact absurd hpid (by simpa using hid)

/-- C5 amended witness: deactivating the Assigned number in `dbEx` leaves a
record satisfying the weak invariant. -/
theorem pool_ops_weak_invariant_witness :
    phoneClearUnlessAssigned ⟨1, "+900", none, PhoneStatus.INACTIVE, none, none⟩ :=
  pool_ops_weak_invariant.1 (.setStatus 1 "INACTIVE") dbEx (by decide) _ (by decide)

/-- Dropping the single element with a given id from a duplicate-free list
removes exactly one element. -/
lemma length_filter_ne_id (l : List UserR) (uid : Nat)
    (hnd : (l.map (fun m => m.id)).Nodup) (hmem : ∃ m ∈ l, m.id = uid) :
    (l.filter (fun m => m.id != uid)).length = l.length - 1 := by
  induction l with
  | nil => simp at hmem
  | cons a t ih =>
    simp only [List.map_cons, List.nodup_cons] at hnd
    by_cases ha : a.id = uid
    · have hkeep : t.filter (fun m => m.id != uid) = t := by
        apply List.filter_eq_self.mpr
        intro m hm
        have hne : m.id ≠ uid := by
          intro hcon
          apply hnd.1
          have hids : a.id = m.id := by rw [ha, hcon]
          rw [hids]
          exact List.mem_map_of_mem (fun m => m.id) hm
        simpa using hne
      have hafilter : (a.id != uid) = false := by simpa using ha
      simp [List.filter_cons, hafilter, hkeep]
    · obtain ⟨m, hm, hmid⟩ := hmem
      rcases List.mem_cons.mp hm with rfl | hm'
      · exact absurd hmid ha
      · have htlen : 1 ≤ t.length := by
          cases t with
          | nil => simp at hm'
          | cons _ _ => simp
        have hafilter : (a.id != uid) = true := by simpa using ha
        rw [List.filter_cons, hafilter]
        simp only [if_true, List.length_cons]
        rw [ih hnd.2 ⟨m, hm', hmid⟩]
        omega

/-- Updating the message log does not change a group's member list. -/
lemma groupUsers_set_messages (db : DB) (ms : List MessageR) (gid : Nat) :
    DB.groupUsers { db with messages := ms } gid = db.groupUsers gid := rfl

/-- Updating the message log does not change a group's bound number. -/
lemma groupPhone_set_messages (db : DB) (ms : List MessageR) (gid : Nat) :
    DB.groupPhone { db with messages := ms } gid = db.groupPhone gid := rfl

/-- A second store for the fallback-with-bound-number delivery family: same
users, groups and memberships as `dbEx`, but group B (id 2) also has a bound
pool number "+888". -/
def dbEx2 : DB :=
  { dbEx with phones := [⟨1, "+900", none, .ASSIGNED, some 1, some 5⟩,
                         ⟨2, "+888", none, .ASSIGNED, some 2, some 6⟩] }

/-- C6: every successful delivery fans out to exactly the group members other
than the author — one send per other member, none to the author, each with
body `[<group>] <author>: <content>`, and with duplicate-free member ids
exactly `n - 1` sends for `n` members.  One clause per resolution route.
First clause (bound-number path): content is the full `Body` and the sender
is `To`, the group's bound number.  Second clause (fallback with an `@`-name,
first case-insensitive match among the sender's groups): content is the
parsed remainder, and the sender is the target group's bound number when one
is present, else the process-wide default `tw` (sms.py lines 83-86).  Third
clause (fallback with no name, sender in exactly one group): content is the
full `Body`, sender again bound-number-or-default. -/
theorem fanout_sends_spec :
    (∀ (tw From Body To : String) (db : DB) (user : UserR) (pr : PhoneNumberR)
        (gid : Nat) (g : GroupR),
      db.users.find? (fun u => u.phone_number == From) = some user →
      db.phones.find? (fun p => p.phone_number == To) = some pr →
      pr.status = .ASSIGNED →
      pr.group_id = some gid → gid ≠ 0 →
      db.groups.find? (fun g' => g'.id == gid) = some g →
      (∃ m ∈ db.groupUsers g.id, m.id = user.id) →
      (handle_sms_webhook tw From Body To db).sends =
        ((db.groupUsers g.id).filter (fun m => m.id != user.id)).map
          (fun m => ⟨m.phone_number, To,
            "[" ++ g.name ++ "] " ++ user.name ++ ": " ++ Body⟩) ∧
      (((db.groupUsers g.id).map (fun m => m.id)).Nodup →
        (handle_sms_webhook tw From Body To db).sends.length =
          (db.groupUsers g.id).length - 1)) ∧
    (∀ (tw From Body To : String) (db : DB) (user : UserR)
        (gname stripped : String) (g : GroupR),
      db.users.find? (fun u => u.phone_number == From) = some user →
      db.phones.find? (fun p => p.phone_number == To) = none →
      parse_sms_command Body = (some gname, stripped) →
      (db.userGroups user.id).find?
        (fun g' => pyLower g'.name == pyLower gname) = some g →
      (handle_sms_webhook tw From Body To db).sends =
        ((db.groupUsers g.id).filter (fun m => m.id != user.id)).map
          (fun m => ⟨m.phone_number,
            ((db.groupPhone g.id).map (fun p => p.phone_number)).getD tw,
            "[" ++ g.name ++ "] " ++ user.name ++ ": " ++ stripped⟩) ∧
      ((∃ m ∈ db.groupUsers g.id, m.id = user.id) →
        ((db.groupUsers g.id).map (fun m => m.id)).Nodup →
        (handle_sms_webhook tw From Body To db).sends.length =
          (db.groupUsers g.id).length - 1)) ∧
    (∀ (tw From Body To : String) (db : DB) (user : UserR) (g : GroupR),
      db.users.find? (fun u => u.phone_number == From) = some user →
      db.phones.find? (fun p => p.phone_number == To) = none →
      (parse_sms_command Body).1 = none →
      db.userGroups user.id = [g] →
      (handle_sms_webhook tw From Body To db).sends =
        ((db.groupUsers g.id).filter (fun m => m.id != user.id)).map
          (fun m => ⟨m.phone_number,
            ((db.groupPhone g.id).map (fun p => p.phone_number)).getD tw,
            "[" ++ g.name ++ "] " ++ user.name ++ ": " ++ Body⟩) ∧
      ((∃ m ∈ db.groupUsers g.id, m.id = user.id) →
        ((db.groupUsers g.id).map (fun m => m.id)).Nodup →
        (handle_sms_webhook tw From Body To db).sends.length =
          (db.groupUsers g.id).length - 1)) := by
  refine ⟨?_, ?_, ?_⟩
  · intro tw From Body To db user pr gid g h1 h2 h3 h4 h5 h6 h7
    have hsends : (handle_sms_webhook tw From Body To db).sends =
        ((db.groupUsers g.id).filter (fun m => m.id != user.id)).map
          (fun m => ⟨m.phone_number, To,
            "[" ++ g.name ++ "] " ++ user.name ++ ": " ++ Body⟩) := by
      simp [handle_sms_webhook, h1, h2, h3, h4, h5, h6, h7, send_group_message,
        groupUsers_set_messages]
    refine ⟨hsends, fun hnd => ?_⟩
    rw [hsends, List.length_map]
    exact length_filter_ne_id _ _ hnd h7
  · intro tw From Body To db user gname stripped g h1 h2 h3 h4
    have hsends : (handle_sms_webhook tw From Body To db).sends =
        ((db.groupUsers g.id).filter (fun m => m.id != user.id)).map
          (fun m => ⟨m.phone_number,
            ((db.groupPhone g.id).map (fun p => p.phone_number)).getD tw,
            "[" ++ g.name ++ "] " ++ user.name ++ ": " ++ stripped⟩) := by
      simp [handle_sms_webhook, h1, h2, h3, h4, groupUsers_set_messages,
        groupPhone_set_messages, send_group_message]
    refine ⟨hsends, fun hmem hnd => ?_⟩
    rw [hsends, List.length_map]
    exact length_filter_ne_id _ _ hnd hmem
  · intro tw From Body To db user g h1 h2 h3 h4
    obtain ⟨p2, hp⟩ : ∃ p2, parse_sms_command Body = (none, p2) :=
      ⟨(parse_sms_command Body).2, by rw [← h3]⟩
    have hsends : (handle_sms_webhook tw From Body To db).sends =
        ((db.groupUsers g.id).filter (fun m => m.id != user.id)).map
          (fun m => ⟨m.phone_number,
            ((db.groupPhone g.id).map (fun p => p.phone_number)).getD tw,
            "[" ++ g.name ++ "] " ++ user.name ++ ": " ++ Body⟩) := by
      simp [handle_sms_webhook, h1, h2, hp, h4, groupUsers_set_messages,
        groupPhone_set_messages, send_group_message]
    refine ⟨hsends, fun hmem hnd => ?_⟩
    rw [hsends, List.length_map]
    exact length_filter_ne_id _ _ hnd hmem

/-- C6 witness, one instance per delivery family.  Bound-number path: Alice's
message to group A's number fans out to exactly Bob and Carol (2 = 3 − 1
sends), sender "+900".  Fallback `@`-name path in `dbEx2`, where group B has
bound number "+888": Alice's quoted-name message is delivered to Dave with
the parsed remainder as content and sender "+888" drawn from the group's
bound number.  Fallback no-name path in `dbEx`, where group B has no bound
number: Dave's message goes out with the default sender "+000". -/
theorem fanout_sends_spec_witness :
    (handle_sms_webhook "+000" "+111" "hi" "+900" dbEx).sends =
      [⟨"+222", "+900", "[Group A] Alice: hi"⟩, ⟨"+333", "+900", "[Group A] Alice: hi"⟩] ∧
    (handle_sms_webhook "+000" "+111" "hi" "+900" dbEx).sends.length = 2 ∧
    (handle_sms_webhook "+000" "+111" "@\x22Group B\x22 hey" "+777" dbEx2).sends =
      [⟨"+444", "+888", "[Group B] Alice: hey"⟩] ∧
    (handle_sms_webhook "+000" "+111" "@\x22Group B\x22 hey" "+777" dbEx2).sends.length = 1 ∧
    (handle_sms_webhook "+000" "+444" "yo" "+777" dbEx).sends =
      [⟨"+111", "+000", "[Group B] Dave: yo"⟩] := by
  have hA := (fanout_sends_spec.1 "+000" "+111" "hi" "+900" dbEx
    ⟨1, "Alice", "+111"⟩ ⟨1, "+900", none, .ASSIGNED, some 1, some 5⟩ 1
    ⟨1, "Group A"⟩ (by decide) (by decide) rfl rfl (by decide) (by decide) (by decide))
  have hB := fanout_sends_spec.2.1 "+000" "+111" "@\x22Group B\x22 hey" "+777" dbEx2
    ⟨1, "Alice", "+111"⟩ "Group B" "hey" ⟨2, "Group B"⟩
    (by decide) (by decide) (by decide) (by decide)
  have hC := fanout_sends_spec.2.2 "+000" "+444" "yo" "+777" dbEx
    ⟨4, "Dave", "+444"⟩ ⟨2, "Group B"⟩ (by decide) (by decide) (by decide) (by decide)
  refine ⟨?_, ?_, ?_, ?_, ?_⟩
  · rw [hA.1]; decide
  · rw [hA.2 (by decide)]; decide
  · rw [hB.1]; decide
  · rw [hB.2 (by decide) (by decide)]; decide
  · rw [hC.1]; decide

/-- C7 counterexample: running the group-A fanout loop (members Alice, Bob,
Carol; author Alice) against a transport that raises on Bob's number: the
loop attempts only Bob, the error propagates to the caller, and Carol is
never attempted — per-recipient failures are not isolated. -/
theorem fanout_failure_aborts_counterexample :
    fanout_attempts (fun n => if n == "+222" then some "TransportError" else none)
        (dbEx.groupUsers 1) 1 =
      (["+222"], some "TransportError") ∧
    "+333" ∉ (fanout_attempts
        (fun n => if n == "+222" then some "TransportError" else none)
        (dbEx.groupUsers 1) 1).1 := by
  decide

/-- C7 amended: the fanout loop has no per-recipient error handling.  When no
send fails (the mock-transport configuration), every member other than the
author is attempted and no error is raised; but as soon as one recipient's
send fails, the loop stops — later members are not attempted and the error
propagates to the caller. -/
theorem fanout_no_isolation :
    (∀ (failsOn : String → Option String) (members : List UserR) (aid : Nat),
      (∀ m ∈ members, failsOn m.phone_number = none) →
      fanout_attempts failsOn members aid =
        ((members.filter (fun m => m.id != aid)).map (fun m => m.phone_number),
         none)) ∧
    (∀ (failsOn : String → Option String) (m : UserR) (rest : List UserR)
        (aid : Nat) (e : String),
      m.id ≠ aid → failsOn m.phone_number = some e →
      fanout_attempts failsOn (m :: rest) aid = ([m.phone_number], some e)) := by
  constructor
  · intro failsOn members aid hok
    induction members with
    | nil => simp [fanout_attempts]
    | cons m rest ih =>
      have hm := hok m (List.mem_cons_self m rest)
      have hrest := ih (fun m' hm' => hok m' (List.mem_cons_of_mem m hm'))
      by_cases hid : (m.id != aid) = true
      · simp [fanout_attempts, hid, hm, hrest, List.filter_cons]
      · simp only [Bool.not_eq_true] at hid
        simp [fanout_attempts, hid, hrest, List.filter_cons]
  · intro failsOn m rest aid e hne hfail
    have hid : (m.id != aid) = true := bne_iff_ne.mpr hne
    simp [fanout_attempts, hid, hfail]

/-- C7 amended witness: with a transport that never fails, the group-A fanout
for author Alice attempts exactly Bob and Carol and raises nothing. -/
theorem fanout_no_isolation_witness :
    fanout_attempts (fun _ => none) (dbEx.groupUsers 1) 1 =
      (["+222", "+333"], none) := by
  have h := fanout_no_isolation.1 (fun _ => none) (dbEx.groupUsers 1) 1
    (fun m _ => rfl)
  rw [h]
  decide

/-- Every element of a list of naturals is bounded by the `foldr max 0`. -/
lemma le_foldr_max (l : List Nat) : ∀ x ∈ l, x ≤ l.foldr Nat.max 0 := by
  induction l with
  | nil => intro x hx; simp at hx
  | cons a t ih =>
    intro x hx
    rcases List.mem_cons.mp hx with rfl | hx'
    · exact Nat.le_max_left _ _
    · exact le_trans (ih x hx') (Nat.le_max_right _ _)

/-- C8: when the pool holds no Available number, `assign_phone_to_group`
returns `none` rather than failing, and `create_group` still succeeds: the
new group is present afterward, the pool is untouched, and the new group has
zero assigned numbers (assuming every bound `group_id` refers to an existing
group). -/
theorem create_group_pool_exhausted (name : String) (now : Nat) (db : DB)
    (hEmpty : ∀ p ∈ db.phones, p.status ≠ .AVAILABLE)
    (hRef : ∀ p ∈ db.phones, ∀ gid, p.group_id = some gid →
      gid ∈ db.groups.map (fun g => g.id)) :
    (create_group name now db).1.name = name ∧
    (create_group name now db).1 ∈ (create_group name now db).2.groups ∧
    (create_group name now db).2.phones = db.phones ∧
    (assign_phone_to_group (freshGroupId db) now
        { db with groups := db.groups ++ [⟨freshGroupId db, name⟩] }).1 = none ∧
    (create_group name now db).2.groupPhone (create_group name now db).1.id = none := by
  have hfind : ∀ (db' : DB), db'.phones = db.phones →
      db'.phones.find? (fun p => p.status == .AVAILABLE) = none := by
    intro db' hp
    rw [hp]
    apply List.find?_eq_none.mpr
    intro p hpmem
    simpa using hEmpty p hpmem
  have hfresh : freshGroupId db ∉ db.groups.map (fun g => g.id) := by
    intro hmem
    have := le_foldr_max (db.groups.map (fun g => g.id)) _ hmem
    simp only [freshGroupId] at this
    omega
  have hassign : (assign_phone_to_group (freshGroupId db) now
      { db with groups := db.groups ++ [⟨freshGroupId db, name⟩] }) =
      (none, { db with groups := db.groups ++ [⟨freshGroupId db, name⟩] }) := by
    unfold assign_phone_to_group
    rw [hfind _ rfl]
  have hcg : create_group name now db =
      (⟨freshGroupId db, name⟩,
       { db with groups := db.groups ++ [⟨freshGroupId db, name⟩] }) := by
    simp only [create_group]
    rw [hassign]
  refine ⟨?_, ?_, ?_, ?_, ?_⟩
  · rw [hcg]
  · rw [hcg]
    simp
  · rw [hcg]
  · rw [hassign]
  · rw [hcg]
    simp only [DB.groupPhone]
    apply List.find?_eq_none.mpr
    intro p hpmem hcon
    have hcon' : p.group_id = some (freshGroupId db) := by simpa using hcon
    exact hfresh (hRef p hpmem _ hcon')

/-- A store whose pool has one Inactive number and no Available number. -/
def dbC8 : DB :=
  ⟨[], [⟨1, "Old"⟩], [], [⟨1, "+900", none, .INACTIVE, none, none⟩], []⟩

/-- C8 witness: a pool with one Inactive (unassignable) number; creating a
group succeeds, touches no phone, and binds no number to the new group. -/
theorem create_group_pool_exhausted_witness :
    (create_group "New" 9 dbC8).1.name = "New" ∧
    (create_group "New" 9 dbC8).2.phones =
      [⟨1, "+900", none, .INACTIVE, none, none⟩] ∧
    (create_group "New" 9 dbC8).2.groupPhone (create_group "New" 9 dbC8).1.id =
      none := by
  have h := create_group_pool_exhausted "New" 9 dbC8 (by decide) (by decide)
  exact ⟨h.1, h.2.2.1.trans (by decide), h.2.2.2.2⟩

/-- C10: a successful join (group and user exist, user not already a member)
appends exactly one membership row and exactly one message — content
`<user name> joined the group!`, authored by the joining user, in the joined
group — to the store. -/
theorem join_group_appends_message (tw : String) (gid uid : Nat) (db : DB)
    (group : GroupR) (user : UserR)
    (hg : db.groups.find? (fun g => g.id == gid) = some group)
    (hu : db.users.find? (fun u => u.id == uid) = some user)
    (hm : ¬ ∃ m ∈ db.groupUsers gid, m.id = user.id) :
    Except.map (fun x => (x.1, x.2.1)) (join_group tw gid uid db) =
      .ok ("User " ++ user.name ++ " joined group " ++ group.name,
        { db with
            memberships := db.memberships ++ [(uid, gid)],
            messages := db.messages ++
              [⟨user.name ++ " joined the group!", uid, gid⟩] }) := by
  simp [join_group, hg, hu, hm, Except.map]

/-- C10 witness: Eve joins group A; the store gains the membership row and the
single "Eve joined the group!" message. -/
theorem join_group_appends_message_witness :
    Except.map (fun x => (x.1, x.2.1)) (join_group "+000" 1 5 dbEx) =
      .ok ("User Eve joined group Group A",
        { dbEx with
            memberships := dbEx.memberships ++ [(5, 1)],
            messages := [⟨"Eve joined the group!", 5, 1⟩] }) := by
  have h := join_group_appends_message "+000" 1 5 dbEx ⟨1, "Group A"⟩
    ⟨5, "Eve", "+555"⟩ (by decide) (by decide) (by decide)
  rw [h]
  rfl

end SmsChat
